import Mathlib

/-!
Shallow embedding of the control wrappers of `native-windows-gui`
(`image_frame.rs`, `rich_text_box.rs`, `message_window.rs`).

The native windowing system is an external collaborator: it is modelled by an
explicit environment `Env` of response functions, and every native invocation
performed by an operation is recorded in an explicit `List NativeCall` trace,
so that "performs no native call" is a statement about the trace. Panics
(`panic!` in the Rust source) are modelled as the `Except.error` branch of an
`Except String _` result carrying the panic message.
-/

namespace Nwg

/-! ### Windows API constants (values from the winapi crate) -/

def WS_VISIBLE : Nat := 0x10000000
def WS_DISABLED : Nat := 0x08000000
def WS_CHILD : Nat := 0x40000000
def WS_BORDER : Nat := 0x00800000
def SS_NOTIFY : Nat := 0x00000100
def SS_CENTERIMAGE : Nat := 0x00000200
def SS_ICON : Nat := 0x00000003
def SS_BITMAP : Nat := 0x0000000E
def ES_MULTILINE : Nat := 0x0004
def ES_AUTOVSCROLL : Nat := 0x0040
def ES_AUTOHSCROLL : Nat := 0x0080
def ES_READONLY : Nat := 0x0800
def WM_CTLCOLORSTATIC : Nat := 0x0138
def STM_SETIMAGE : Nat := 0x0172
def STM_GETIMAGE : Nat := 0x0173
def IMAGE_BITMAP : Nat := 0
def IMAGE_ICON : Nat := 1
def EM_GETSEL : Nat := 0x00B0
def EM_SETSEL : Nat := 0x00B1
def EM_GETMODIFY : Nat := 0x00B8
def EM_SETMODIFY : Nat := 0x00B9
def EM_LINELENGTH : Nat := 0x00C1
def EM_SETLIMITTEXT : Nat := 0x00C5
def EM_UNDO : Nat := 0x00C7
def EM_SETREADONLY : Nat := 0x00CF
def EM_GETLIMITTEXT : Nat := 0x0425

/-- The `RGB` macro of `wingdi.h`: `r | g << 8 | b << 16`. -/
def RGB (c : Nat × Nat × Nat) : Nat := c.1 ||| (c.2.1 <<< 8) ||| (c.2.2 <<< 16)

/-! ### Data model -/

/-- Modelled from the spec: `ControlHandle` (defined outside the three source
files) is an opaque reference to a native window resource with a blank/unbound
sentinel state; the bound state carries the native window handle (`HWND`). -/
inductive ControlHandle
  | NoHandle
  | Hwnd (hwnd : Nat)
deriving DecidableEq

/-- `ControlHandle::blank`: true exactly on the unbound sentinel. -/
def ControlHandle.blank : ControlHandle → Bool
  | .NoHandle => true
  | .Hwnd _ => false

/-- `ControlHandle::hwnd`: the native window handle, when bound. -/
def ControlHandle.hwnd : ControlHandle → Option Nat
  | .NoHandle => none
  | .Hwnd h => some h

instance : Inhabited ControlHandle := ⟨ControlHandle.NoHandle⟩

/-- Modelled from the spec: the construction-error taxonomy
(`NwgError`, defined outside the three source files): a missing-parent
condition naming the control type, and opaque lower-level creation failures. -/
inductive NwgError
  | MissingParent (controlType : String)
  | CreationError (msg : String)
deriving DecidableEq

/-- `NwgError::no_parent(name)`: the missing-parent construction error. -/
def NwgError.no_parent (name : String) : NwgError := .MissingParent name

/-- `Bitmap` resource reference: an opaque native handle plus ownership flag. -/
structure Bitmap where
  handle : Nat
  owned : Bool
deriving DecidableEq

/-- `Icon` resource reference: an opaque native handle plus ownership flag. -/
structure Icon where
  handle : Nat
  owned : Bool
deriving DecidableEq

/-- `Font` resource reference: an opaque native handle. -/
structure Font where
  handle : Nat
deriving DecidableEq

/-- A registered raw event handler (`RawEventHandler`), as produced by
`bind_raw_event_handler(parent, routing_key, callback)`; the closure state
captured by the `ImageFrame` background-color callback is the child handle and
the brush. -/
structure RawEventHandler where
  parentHandle : Nat
  routingKey : Nat
  childHandle : Nat
  brush : Nat
deriving DecidableEq

/-- One native (platform) invocation, recorded in a trace. -/
inductive NativeCall
  | sendMessage (hwnd msg w l : Nat)
  | getWindowEnabled (hwnd : Nat)
  | setWindowEnabled (hwnd : Nat) (v : Bool)
  | getWindowVisibility (hwnd : Nat)
  | setWindowVisibility (hwnd : Nat) (v : Bool)
  | getWindowSize (hwnd : Nat)
  | setWindowSize (hwnd : Nat) (x y : Nat)
  | getWindowPosition (hwnd : Nat)
  | setWindowPosition (hwnd : Nat) (x y : Int)
  | getWindowText (hwnd : Nat)
  | setWindowText (hwnd : Nat) (t : String)
  | getFocus (hwnd : Nat)
  | setFocus (hwnd : Nat)
  | getWindowFont (hwnd : Nat)
  | setWindowFont (hwnd : Nat) (font : Option Nat) (redraw : Bool)
  | getStyle (hwnd : Nat)
  | getWindowParent (hwnd : Nat)
  | createSolidBrush (color : Nat)
  | bindRawEventHandler (parent key : Nat)
  | isBitmap (handle : Nat)
  | unbindRawEventHandler (h : RawEventHandler)
deriving DecidableEq

/-- Parameters handed to the window-creation collaborator
(`ControlBase::build_hwnd`). -/
structure CreateParams where
  className : String
  forcedFlags : Nat
  flags : Nat
  size : Int × Int
  position : Int × Int
  parent : ControlHandle
  text : String
deriving DecidableEq

/-- The external windowing system: response functions for every native call
the three source files perform. -/
structure Env where
  createWindow : CreateParams → Except NwgError Nat
  createMessageWindow : Except NwgError Nat
  sendMessageR : Nat → Nat → Nat → Nat → Nat
  getSel : Nat → Nat × Nat
  getWindowEnabled : Nat → Bool
  getWindowVisibility : Nat → Bool
  getWindowSize : Nat → Nat × Nat
  getWindowPosition : Nat → Int × Int
  getWindowText : Nat → String
  getFocus : Nat → Bool
  getWindowFont : Nat → Nat
  getStyle : Nat → Nat
  getWindowParent : Nat → Nat
  createSolidBrush : Nat → Nat
  isBitmap : Nat → Bool

/-! ### ImageFrame (`image_frame.rs`) -/

def ImageFrame.NOT_BOUND : String := "ImageFrame is not yet bound to a winapi object"
def ImageFrame.BAD_HANDLE : String := "INTERNAL ERROR: ImageFrame handle is not HWND!"

/-- The `ImageFrame` control: a handle and an optional attached raw event
handler (`handler0`). -/
structure ImageFrame where
  handle : ControlHandle
  handler0 : Option RawEventHandler
deriving DecidableEq

instance : Inhabited ImageFrame := ⟨⟨.NoHandle, none⟩⟩

/-- `ImageFrame::set_bitmap`. -/
def ImageFrame.set_bitmap (c : ImageFrame) (image : Option Bitmap) :
    Except String Unit × List NativeCall :=
  if c.handle.blank then (.error ImageFrame.NOT_BOUND, [])
  else match c.handle.hwnd with
  | none => (.error ImageFrame.BAD_HANDLE, [])
  | some handle =>
    let image_handle := (image.map (fun i => i.handle)).getD 0
    (.ok (), [.sendMessage handle STM_SETIMAGE IMAGE_BITMAP image_handle])

/-- `ImageFrame::set_icon`. -/
def ImageFrame.set_icon (c : ImageFrame) (image : Option Icon) :
    Except String Unit × List NativeCall :=
  if c.handle.blank then (.error ImageFrame.NOT_BOUND, [])
  else match c.handle.hwnd with
  | none => (.error ImageFrame.BAD_HANDLE, [])
  | some handle =>
    let image_handle := (image.map (fun i => i.handle)).getD 0
    (.ok (), [.sendMessage handle STM_SETIMAGE IMAGE_ICON image_handle])

/-- `ImageFrame::image`: queries both image kinds, then classifies the result,
checking the bitmap handle first. -/
def ImageFrame.image (c : ImageFrame) (env : Env) :
    Except String (Option Bitmap × Option Icon) × List NativeCall :=
  if c.handle.blank then (.error ImageFrame.NOT_BOUND, [])
  else match c.handle.hwnd with
  | none => (.error ImageFrame.BAD_HANDLE, [])
  | some handle =>
    let bitmap_handle := env.sendMessageR handle STM_GETIMAGE IMAGE_BITMAP 0
    let icon_handle := env.sendMessageR handle STM_GETIMAGE IMAGE_ICON 0
    let res : Option Bitmap × Option Icon :=
      if bitmap_handle ≠ 0 ∧ env.isBitmap bitmap_handle = true then
        (some ⟨bitmap_handle, false⟩, none)
      else if icon_handle ≠ 0 then
        (none, some ⟨icon_handle, false⟩)
      else (none, none)
    (.ok res,
      [.sendMessage handle STM_GETIMAGE IMAGE_BITMAP 0,
       .sendMessage handle STM_GETIMAGE IMAGE_ICON 0]
        ++ (if bitmap_handle ≠ 0 then [.isBitmap bitmap_handle] else []))

/-- `ImageFrame::enabled`. -/
def ImageFrame.enabled (c : ImageFrame) (env : Env) :
    Except String Bool × List NativeCall :=
  if c.handle.blank then (.error ImageFrame.NOT_BOUND, [])
  else match c.handle.hwnd with
  | none => (.error ImageFrame.BAD_HANDLE, [])
  | some handle => (.ok (env.getWindowEnabled handle), [.getWindowEnabled handle])

/-- `ImageFrame::set_enabled`. -/
def ImageFrame.set_enabled (c : ImageFrame) (v : Bool) :
    Except String Unit × List NativeCall :=
  if c.handle.blank then (.error ImageFrame.NOT_BOUND, [])
  else match c.handle.hwnd with
  | none => (.error ImageFrame.BAD_HANDLE, [])
  | some handle => (.ok (), [.setWindowEnabled handle v])

/-- `ImageFrame::visible`. -/
def ImageFrame.visible (c : ImageFrame) (env : Env) :
    Except String Bool × List NativeCall :=
  if c.handle.blank then (.error ImageFrame.NOT_BOUND, [])
  else match c.handle.hwnd with
  | none => (.error ImageFrame.BAD_HANDLE, [])
  | some handle => (.ok (env.getWindowVisibility handle), [.getWindowVisibility handle])

/-- `ImageFrame::set_visible`. -/
def ImageFrame.set_visible (c : ImageFrame) (v : Bool) :
    Except String Unit × List NativeCall :=
  if c.handle.blank then (.error ImageFrame.NOT_BOUND, [])
  else match c.handle.hwnd with
  | none => (.error ImageFrame.BAD_HANDLE, [])
  | some handle => (.ok (), [.setWindowVisibility handle v])

/-- `ImageFrame::size`. -/
def ImageFrame.size (c : ImageFrame) (env : Env) :
    Except String (Nat × Nat) × List NativeCall :=
  if c.handle.blank then (.error ImageFrame.NOT_BOUND, [])
  else match c.handle.hwnd with
  | none => (.error ImageFrame.BAD_HANDLE, [])
  | some handle => (.ok (env.getWindowSize handle), [.getWindowSize handle])

/-- `ImageFrame::set_size`. -/
def ImageFrame.set_size (c : ImageFrame) (x y : Nat) :
    Except String Unit × List NativeCall :=
  if c.handle.blank then (.error ImageFrame.NOT_BOUND, [])
  else match c.handle.hwnd with
  | none => (.error ImageFrame.BAD_HANDLE, [])
  | some handle => (.ok (), [.setWindowSize handle x y])

/-- `ImageFrame::position`. -/
def ImageFrame.position (c : ImageFrame) (env : Env) :
    Except String (Int × Int) × List NativeCall :=
  if c.handle.blank then (.error ImageFrame.NOT_BOUND, [])
  else match c.handle.hwnd with
  | none => (.error ImageFrame.BAD_HANDLE, [])
  | some handle => (.ok (env.getWindowPosition handle), [.getWindowPosition handle])

/-- `ImageFrame::set_position`. -/
def ImageFrame.set_position (c : ImageFrame) (x y : Int) :
    Except String Unit × List NativeCall :=
  if c.handle.blank then (.error ImageFrame.NOT_BOUND, [])
  else match c.handle.hwnd with
  | none => (.error ImageFrame.BAD_HANDLE, [])
  | some handle => (.ok (), [.setWindowPosition handle x y])

/-- `ImageFrame::class_name`. -/
def ImageFrame.class_name : String := "STATIC"

/-- `ImageFrame::flags`: base creation flags. -/
def ImageFrame.flags : Nat := WS_VISIBLE

/-- `ImageFrame::forced_flags`. -/
def ImageFrame.forced_flags : Nat := WS_CHILD ||| SS_NOTIFY ||| SS_CENTERIMAGE

/-- The closure registered by `ImageFrame::hook_background_color` against the
parent window: on `WM_CTLCOLORSTATIC`, if the child handle embedded in the
`l` parameter equals this control's own handle, answer with the brush;
otherwise (and on every other message) answer `None`. -/
def imageFrameBgCallback (handle brush : Nat) (_hwnd msg _w l : Nat) : Option Nat :=
  if msg = WM_CTLCOLORSTATIC then
    (if l = handle then some brush else none)
  else none

/-- `ImageFrame::hook_background_color`: creates the solid brush, registers
the callback against the parent keyed by this control's handle and stores the
resulting handler in `handler0`. -/
def ImageFrame.hook_background_color (c : ImageFrame) (color : Nat × Nat × Nat)
    (env : Env) : Except String ImageFrame × List NativeCall :=
  if c.handle.blank then (.error ImageFrame.NOT_BOUND, [])
  else match c.handle.hwnd with
  | none => (.error ImageFrame.BAD_HANDLE, [])
  | some handle =>
    let parentHandle := env.getWindowParent handle
    let brush := env.createSolidBrush (RGB color)
    let handler : RawEventHandler :=
      ⟨parentHandle, handle, handle, brush⟩
    (.ok { c with handler0 := some handler },
     [.getWindowParent handle, .createSolidBrush (RGB color),
      .bindRawEventHandler parentHandle handle])

/-- `impl Drop for ImageFrame`: unbinds the stored raw event handler when one
is present, otherwise does nothing. Returns the trace of unbind calls. -/
def ImageFrame.drop (c : ImageFrame) : List NativeCall :=
  match c.handler0 with
  | some h => [.unbindRawEventHandler h]
  | none => []

/-! ### RichTextBox (`rich_text_box.rs`) -/

def RichTextBox.NOT_BOUND : String := "RichTextBox is not yet bound to a winapi object"
def RichTextBox.BAD_HANDLE : String := "INTERNAL ERROR: RichTextBox handle is not HWND!"

/-- The `RichTextBox` control: only a handle. -/
structure RichTextBox where
  handle : ControlHandle
deriving DecidableEq

instance : Inhabited RichTextBox := ⟨⟨.NoHandle⟩⟩

/-- A character range, embedding Rust's `Range<u32>` (`stop` embeds the Rust
field `end`). -/
structure CharRange where
  start : Nat
  stop : Nat
deriving DecidableEq

/-- `RichTextBox::font`. -/
def RichTextBox.font (c : RichTextBox) (env : Env) :
    Except String (Option Font) × List NativeCall :=
  if c.handle.blank then (.error RichTextBox.NOT_BOUND, [])
  else match c.handle.hwnd with
  | none => (.error RichTextBox.BAD_HANDLE, [])
  | some handle =>
    let font_handle := env.getWindowFont handle
    (.ok (if font_handle = 0 then none else some ⟨font_handle⟩),
     [.getWindowFont handle])

/-- `RichTextBox::set_font`. -/
def RichTextBox.set_font (c : RichTextBox) (font : Option Font) :
    Except String Unit × List NativeCall :=
  if c.handle.blank then (.error RichTextBox.NOT_BOUND, [])
  else match c.handle.hwnd with
  | none => (.error RichTextBox.BAD_HANDLE, [])
  | some handle =>
    (.ok (), [.setWindowFont handle (font.map (fun f => f.handle)) true])

/-- `RichTextBox::limit`. -/
def RichTextBox.limit (c : RichTextBox) (env : Env) :
    Except String Nat × List NativeCall :=
  if c.handle.blank then (.error RichTextBox.NOT_BOUND, [])
  else match c.handle.hwnd with
  | none => (.error RichTextBox.BAD_HANDLE, [])
  | some handle =>
    (.ok (env.sendMessageR handle EM_GETLIMITTEXT 0 0),
     [.sendMessage handle EM_GETLIMITTEXT 0 0])

/-- `RichTextBox::set_limit`. -/
def RichTextBox.set_limit (c : RichTextBox) (lim : Nat) :
    Except String Unit × List NativeCall :=
  if c.handle.blank then (.error RichTextBox.NOT_BOUND, [])
  else match c.handle.hwnd with
  | none => (.error RichTextBox.BAD_HANDLE, [])
  | some handle => (.ok (), [.sendMessage handle EM_SETLIMITTEXT lim 0])

/-- `RichTextBox::modified`. -/
def RichTextBox.modified (c : RichTextBox) (env : Env) :
    Except String Bool × List NativeCall :=
  if c.handle.blank then (.error RichTextBox.NOT_BOUND, [])
  else match c.handle.hwnd with
  | none => (.error RichTextBox.BAD_HANDLE, [])
  | some handle =>
    (.ok (env.sendMessageR handle EM_GETMODIFY 0 0 ≠ 0),
     [.sendMessage handle EM_GETMODIFY 0 0])

/-- `RichTextBox::set_modified` (`e as usize` is 1 for true, 0 for false). -/
def RichTextBox.set_modified (c : RichTextBox) (e : Bool) :
    Except String Unit × List NativeCall :=
  if c.handle.blank then (.error RichTextBox.NOT_BOUND, [])
  else match c.handle.hwnd with
  | none => (.error RichTextBox.BAD_HANDLE, [])
  | some handle =>
    (.ok (), [.sendMessage handle EM_SETMODIFY (if e then 1 else 0) 0])

/-- `RichTextBox::undo`. -/
def RichTextBox.undo (c : RichTextBox) :
    Except String Unit × List NativeCall :=
  if c.handle.blank then (.error RichTextBox.NOT_BOUND, [])
  else match c.handle.hwnd with
  | none => (.error RichTextBox.BAD_HANDLE, [])
  | some handle => (.ok (), [.sendMessage handle EM_UNDO 0 0])

/-- `RichTextBox::selection`: sends `EM_GETSEL` with two output slots and
returns whatever the platform wrote into them, first slot as `start`, second
as `stop`. -/
def RichTextBox.selection (c : RichTextBox) (env : Env) :
    Except String CharRange × List NativeCall :=
  if c.handle.blank then (.error RichTextBox.NOT_BOUND, [])
  else match c.handle.hwnd with
  | none => (.error RichTextBox.BAD_HANDLE, [])
  | some handle =>
    let out := env.getSel handle
    (.ok ⟨out.1, out.2⟩, [.sendMessage handle EM_GETSEL 0 0])

/-- `RichTextBox::set_selection`. -/
def RichTextBox.set_selection (c : RichTextBox) (r : CharRange) :
    Except String Unit × List NativeCall :=
  if c.handle.blank then (.error RichTextBox.NOT_BOUND, [])
  else match c.handle.hwnd with
  | none => (.error RichTextBox.BAD_HANDLE, [])
  | some handle => (.ok (), [.sendMessage handle EM_SETSEL r.start r.stop])

/-- `RichTextBox::len`. -/
def RichTextBox.len (c : RichTextBox) (env : Env) :
    Except String Nat × List NativeCall :=
  if c.handle.blank then (.error RichTextBox.NOT_BOUND, [])
  else match c.handle.hwnd with
  | none => (.error RichTextBox.BAD_HANDLE, [])
  | some handle =>
    (.ok (env.sendMessageR handle EM_LINELENGTH 0 0),
     [.sendMessage handle EM_LINELENGTH 0 0])

/-- `RichTextBox::readonly`. -/
def RichTextBox.readonly (c : RichTextBox) (env : Env) :
    Except String Bool × List NativeCall :=
  if c.handle.blank then (.error RichTextBox.NOT_BOUND, [])
  else match c.handle.hwnd with
  | none => (.error RichTextBox.BAD_HANDLE, [])
  | some handle =>
    (.ok (env.getStyle handle &&& ES_READONLY = ES_READONLY),
     [.getStyle handle])

/-- `RichTextBox::set_readonly` (`r as WPARAM` is 1 for true, 0 for false). -/
def RichTextBox.set_readonly (c : RichTextBox) (r : Bool) :
    Except String Unit × List NativeCall :=
  if c.handle.blank then (.error RichTextBox.NOT_BOUND, [])
  else match c.handle.hwnd with
  | none => (.error RichTextBox.BAD_HANDLE, [])
  | some handle =>
    (.ok (), [.sendMessage handle EM_SETREADONLY (if r then 1 else 0) 0])

/-- `RichTextBox::set_text`. -/
def RichTextBox.set_text (c : RichTextBox) (v : String) :
    Except String Unit × List NativeCall :=
  if c.handle.blank then (.error RichTextBox.NOT_BOUND, [])
  else match c.handle.hwnd with
  | none => (.error RichTextBox.BAD_HANDLE, [])
  | some handle => (.ok (), [.setWindowText handle v])

/-- `RichTextBox::clear`: delegates to `set_text("")`. -/
def RichTextBox.clear (c : RichTextBox) :
    Except String Unit × List NativeCall :=
  c.set_text ""

/-- `RichTextBox::focus`. -/
def RichTextBox.focus (c : RichTextBox) (env : Env) :
    Except String Bool × List NativeCall :=
  if c.handle.blank then (.error RichTextBox.NOT_BOUND, [])
  else match c.handle.hwnd with
  | none => (.error RichTextBox.BAD_HANDLE, [])
  | some handle => (.ok (env.getFocus handle), [.getFocus handle])

/-- `RichTextBox::set_focus`. -/
def RichTextBox.set_focus (c : RichTextBox) :
    Except String Unit × List NativeCall :=
  if c.handle.blank then (.error RichTextBox.NOT_BOUND, [])
  else match c.handle.hwnd with
  | none => (.error RichTextBox.BAD_HANDLE, [])
  | some handle => (.ok (), [.setFocus handle])

/-- `RichTextBox::enabled`. -/
def RichTextBox.enabled (c : RichTextBox) (env : Env) :
    Except String Bool × List NativeCall :=
  if c.handle.blank then (.error RichTextBox.NOT_BOUND, [])
  else match c.handle.hwnd with
  | none => (.error RichTextBox.BAD_HANDLE, [])
  | some handle => (.ok (env.getWindowEnabled handle), [.getWindowEnabled handle])

/-- `RichTextBox::set_enabled`. -/
def RichTextBox.set_enabled (c : RichTextBox) (v : Bool) :
    Except String Unit × List NativeCall :=
  if c.handle.blank then (.error RichTextBox.NOT_BOUND, [])
  else match c.handle.hwnd with
  | none => (.error RichTextBox.BAD_HANDLE, [])
  | some handle => (.ok (), [.setWindowEnabled handle v])

/-- `RichTextBox::visible`. -/
def RichTextBox.visible (c : RichTextBox) (env : Env) :
    Except String Bool × List NativeCall :=
  if c.handle.blank then (.error RichTextBox.NOT_BOUND, [])
  else match c.handle.hwnd with
  | none => (.error RichTextBox.BAD_HANDLE, [])
  | some handle => (.ok (env.getWindowVisibility handle), [.getWindowVisibility handle])

/-- `RichTextBox::set_visible`. -/
def RichTextBox.set_visible (c : RichTextBox) (v : Bool) :
    Except String Unit × List NativeCall :=
  if c.handle.blank then (.error RichTextBox.NOT_BOUND, [])
  else match c.handle.hwnd with
  | none => (.error RichTextBox.BAD_HANDLE, [])
  | some handle => (.ok (), [.setWindowVisibility handle v])

/-- `RichTextBox::size`. -/
def RichTextBox.size (c : RichTextBox) (env : Env) :
    Except String (Nat × Nat) × List NativeCall :=
  if c.handle.blank then (.error RichTextBox.NOT_BOUND, [])
  else match c.handle.hwnd with
  | none => (.error RichTextBox.BAD_HANDLE, [])
  | some handle => (.ok (env.getWindowSize handle), [.getWindowSize handle])

/-- `RichTextBox::set_size`. -/
def RichTextBox.set_size (c : RichTextBox) (x y : Nat) :
    Except String Unit × List NativeCall :=
  if c.handle.blank then (.error RichTextBox.NOT_BOUND, [])
  else match c.handle.hwnd with
  | none => (.error RichTextBox.BAD_HANDLE, [])
  | some handle => (.ok (), [.setWindowSize handle x y])

/-- `RichTextBox::position`. -/
def RichTextBox.position (c : RichTextBox) (env : Env) :
    Except String (Int × Int) × List NativeCall :=
  if c.handle.blank then (.error RichTextBox.NOT_BOUND, [])
  else match c.handle.hwnd with
  | none => (.error RichTextBox.BAD_HANDLE, [])
  | some handle => (.ok (env.getWindowPosition handle), [.getWindowPosition handle])

/-- `RichTextBox::set_position`. -/
def RichTextBox.set_position (c : RichTextBox) (x y : Int) :
    Except String Unit × List NativeCall :=
  if c.handle.blank then (.error RichTextBox.NOT_BOUND, [])
  else match c.handle.hwnd with
  | none => (.error RichTextBox.BAD_HANDLE, [])
  | some handle => (.ok (), [.setWindowPosition handle x y])

/-- `RichTextBox::text`. -/
def RichTextBox.text (c : RichTextBox) (env : Env) :
    Except String String × List NativeCall :=
  if c.handle.blank then (.error RichTextBox.NOT_BOUND, [])
  else match c.handle.hwnd with
  | none => (.error RichTextBox.BAD_HANDLE, [])
  | some handle => (.ok (env.getWindowText handle), [.getWindowText handle])

/-- `RichTextBox::class_name`. -/
def RichTextBox.class_name : String := "RICHEDIT50W"

/-- `RichTextBox::flags`: base creation flags. -/
def RichTextBox.flags : Nat := WS_VISIBLE ||| ES_AUTOVSCROLL ||| ES_AUTOHSCROLL

/-- `RichTextBox::forced_flags`. -/
def RichTextBox.forced_flags : Nat := WS_BORDER ||| WS_CHILD ||| ES_MULTILINE

/-! ### Builders -/

/-- `ImageFrameBuilder` (resource references are embedded by value). -/
structure ImageFrameBuilder where
  size : Int × Int
  position : Int × Int
  flags : Option Nat
  bitmap : Option Bitmap
  icon : Option Icon
  parent : Option ControlHandle
  background_color : Option (Nat × Nat × Nat)
deriving DecidableEq

/-- `ImageFrame::builder`: the default builder configuration. -/
def ImageFrame.builder : ImageFrameBuilder :=
  { size := (100, 100), position := (0, 0), flags := none, bitmap := none,
    icon := none, parent := none, background_color := none }

/-- The creation-flag computation at the top of `ImageFrameBuilder::build`:
explicit flags (else the base flags), then the content-mode flag, testing the
icon reference first. -/
def ImageFrameBuilder.creationFlags (b : ImageFrameBuilder) : Nat :=
  let flags := b.flags.getD ImageFrame.flags
  if b.icon.isSome then flags ||| SS_ICON else flags ||| SS_BITMAP

/-- The parameters `ImageFrameBuilder::build` hands to
`ControlBase::build_hwnd`. -/
def ImageFrameBuilder.createParams (b : ImageFrameBuilder) (parent : ControlHandle) :
    CreateParams :=
  ⟨ImageFrame.class_name, ImageFrame.forced_flags, b.creationFlags,
   b.size, b.position, parent, ""⟩

/-- `ImageFrameBuilder::build`: flag computation, parent validation, window
creation, then post-creation image configuration (bitmap branch first) and
optional background-color hook attachment. The outer `Except String` is the
panic channel; the inner `Except NwgError Unit` is the returned `Result`; the
`ImageFrame` is the final state of `out`; the `List NativeCall` is the trace
of post-creation native calls. -/
def ImageFrameBuilder.build (b : ImageFrameBuilder) (out : ImageFrame) (env : Env) :
    Except String (Except NwgError Unit × ImageFrame × List NativeCall) :=
  match b.parent with
  | none => .ok (.error (NwgError.no_parent "ImageFrame"), out, [])
  | some parent =>
    match env.createWindow (b.createParams parent) with
    | .error e => .ok (.error e, out, [])
    | .ok hwnd =>
      let out1 : ImageFrame := { out with handle := .Hwnd hwnd }
      let imageStep : Except String Unit × List NativeCall :=
        if b.bitmap.isSome then out1.set_bitmap b.bitmap
        else if b.icon.isSome then out1.set_icon b.icon
        else (.ok (), [])
      match imageStep with
      | (.error msg, _) => .error msg
      | (.ok (), calls1) =>
        match b.background_color with
        | none => .ok (.ok (), out1, calls1)
        | some color =>
          match out1.hook_background_color color env with
          | (.error msg, _) => .error msg
          | (.ok out2, calls2) => .ok (.ok (), out2, calls1 ++ calls2)

/-- `RichTextBoxBuilder` (the font reference is embedded by value). -/
structure RichTextBoxBuilder where
  text : String
  size : Int × Int
  position : Int × Int
  flags : Option Nat
  limit : Nat
  readonly : Bool
  font : Option Font
  parent : Option ControlHandle
deriving DecidableEq

/-- `RichTextBox::builder`: the default builder configuration. -/
def RichTextBox.builder : RichTextBoxBuilder :=
  { text := "", size := (100, 25), position := (0, 0), flags := none,
    limit := 0, readonly := false, font := none, parent := none }

/-- The creation-flag computation of `RichTextBoxBuilder::build`: explicit
flags, else the base flags. -/
def RichTextBoxBuilder.creationFlags (b : RichTextBoxBuilder) : Nat :=
  b.flags.getD RichTextBox.flags

/-- The parameters `RichTextBoxBuilder::build` hands to
`ControlBase::build_hwnd`. -/
def RichTextBoxBuilder.createParams (b : RichTextBoxBuilder) (parent : ControlHandle) :
    CreateParams :=
  ⟨RichTextBox.class_name, RichTextBox.forced_flags, b.creationFlags,
   b.size, b.position, parent, b.text⟩

/-- `RichTextBoxBuilder::build`: parent validation, window creation, then
post-creation configuration in source order (`set_limit` when the limit is
strictly positive, `set_readonly` when readonly, `set_font` when a font was
supplied). Result shape as for `ImageFrameBuilder.build`. -/
def RichTextBoxBuilder.build (b : RichTextBoxBuilder) (out : RichTextBox) (env : Env) :
    Except String (Except NwgError Unit × RichTextBox × List NativeCall) :=
  match b.parent with
  | none => .ok (.error (NwgError.no_parent "RichTextBox"), out, [])
  | some parent =>
    match env.createWindow (b.createParams parent) with
    | .error e => .ok (.error e, out, [])
    | .ok hwnd =>
      let out1 : RichTextBox := ⟨.Hwnd hwnd⟩
      let limitStep : Except String Unit × List NativeCall :=
        if b.limit > 0 then out1.set_limit b.limit else (.ok (), [])
      match limitStep with
      | (.error msg, _) => .error msg
      | (.ok (), calls1) =>
        let readonlyStep : Except String Unit × List NativeCall :=
          if b.readonly then out1.set_readonly b.readonly else (.ok (), [])
        match readonlyStep with
        | (.error msg, _) => .error msg
        | (.ok (), calls2) =>
          let fontStep : Except String Unit × List NativeCall :=
            if b.font.isSome then out1.set_font b.font else (.ok (), [])
          match fontStep with
          | (.error msg, _) => .error msg
          | (.ok (), calls3) =>
            .ok (.ok (), out1, calls1 ++ calls2 ++ calls3)

/-! ### MessageWindow (`message_window.rs`) -/

/-- The `MessageWindow` control: only a handle. -/
structure MessageWindow where
  handle : ControlHandle
deriving DecidableEq

/-- `MessageWindowBuilder`: it has no configuration fields at all — in
particular no parent reference. -/
structure MessageWindowBuilder where
deriving DecidableEq

/-- `MessageWindow::builder`. -/
def MessageWindow.builder : MessageWindowBuilder := {}

/-- `MessageWindowBuilder::build`: delegates to `create_message_window` and
binds the handle on success; on failure propagates the creation error with
`out` unchanged. -/
def MessageWindowBuilder.build (_b : MessageWindowBuilder) (out : MessageWindow)
    (env : Env) : Except NwgError Unit × MessageWindow :=
  match env.createMessageWindow with
  | .error e => (.error e, out)
  | .ok hwnd => (.ok (), ⟨.Hwnd hwnd⟩)

/-! ### Spec-modelled collaborator behaviour -/

/-- Modelled from the spec: `ControlBase::build_hwnd` (outside the three
source files) OR-combines the type's forced flags into the effective flag set
used for window creation. -/
def effectiveFlags (flags forced : Nat) : Nat := flags ||| forced

/-- Modelled from the spec: the platform's per-control edit/selection state
(the windowing system is an external collaborator; only its selection
contract is needed). `textLen` is the current text length and
`selStart`/`selEnd` the stored selection endpoints. -/
structure EditState where
  textLen : Nat
  selStart : Nat
  selEnd : Nat
deriving DecidableEq

/-- Modelled from the spec: the platform's handling of an `EM_SETSEL`
message — the requested endpoints are stored, clamped to the text length. -/
def emSetSel (st : EditState) (a b : Nat) : EditState :=
  { st with selStart := min a st.textLen, selEnd := min b st.textLen }

/-- Modelled from the spec: the platform's answer to the dual-output
`EM_GETSEL` query — it writes the stored selection endpoints into the two
output slots, normalized so the first is never greater than the second. -/
def emGetSel (st : EditState) : Nat × Nat :=
  (min st.selStart st.selEnd, max st.selStart st.selEnd)

/-- Modelled from the spec: the platform's selection state after processing
one native call (only `EM_SETSEL` affects it). -/
def applySetSel (st : EditState) (call : NativeCall) : EditState :=
  match call with
  | .sendMessage _ msg w l => if msg = EM_SETSEL then emSetSel st w l else st
  | _ => st

/-- The platform's selection state after processing a trace of calls. -/
def applyCalls (st : EditState) (calls : List NativeCall) : EditState :=
  calls.foldl applySetSel st

/-! ### Helpers for stating the claims -/

/-- Whether an `Except` result is the success branch. -/
def isOkE {ε α : Type} : Except ε α → Bool
  | .ok _ => true
  | .error _ => false

/-- Whether a native call is the `EM_SETLIMITTEXT` message of `set_limit`. -/
def isSetLimitCall : NativeCall → Bool
  | .sendMessage _ msg _ _ => msg == EM_SETLIMITTEXT
  | _ => false

/-- Whether a native call is the `EM_SETREADONLY` message of `set_readonly`. -/
def isSetReadonlyCall : NativeCall → Bool
  | .sendMessage _ msg _ _ => msg == EM_SETREADONLY
  | _ => false

/-- Whether a native call is the font installation of `set_font`. -/
def isSetFontCall : NativeCall → Bool
  | .setWindowFont _ _ _ => true
  | _ => false

/-- A concrete environment in which every creation succeeds (handle 7) and
all queries answer fixed values; used to evaluate the definitions at concrete
inputs. -/
def env0 : Env :=
  { createWindow := fun _ => .ok 7
    createMessageWindow := .ok 7
    sendMessageR := fun _ _ _ _ => 0
    getSel := fun _ => (0, 0)
    getWindowEnabled := fun _ => true
    getWindowVisibility := fun _ => true
    getWindowSize := fun _ => (0, 0)
    getWindowPosition := fun _ => (0, 0)
    getWindowText := fun _ => ""
    getFocus := fun _ => false
    getWindowFont := fun _ => 0
    getStyle := fun _ => 0
    getWindowParent := fun _ => 1
    createSolidBrush := fun c => c + 1
    isBitmap := fun _ => true }

/-- An `ImageFrame` builder supplied with both a bitmap and an icon resource
reference (plus the mandatory parent). -/
def bothImagesBuilder : ImageFrameBuilder :=
  { ImageFrame.builder with
    bitmap := some ⟨10, true⟩
    icon := some ⟨11, true⟩
    parent := some (ControlHandle.Hwnd 1) }

/-- `env0` with the dual-output selection query answering `(1, 3)`. -/
def envSel13 : Env := { env0 with getSel := fun _ => (1, 3) }

/-- `env0` with the dual-output selection query writing the decreasing pair
`(5, 3)` into the two output slots. -/
def envSel53 : Env := { env0 with getSel := fun _ => (5, 3) }

/-! ### Theorems -/

/-- `ImageFrameBuilder::build` with no parent: MissingParent, `out` untouched,
no native call, no panic. -/
theorem imageFrameBuild_noParent (bi : ImageFrameBuilder) (oif : ImageFrame)
    (env : Env) (hp : bi.parent = none) :
    bi.build oif env = .ok (.error (NwgError.no_parent "ImageFrame"), oif, []) := by
  simp only [ImageFrameBuilder.build, hp]

/-- `ImageFrameBuilder::build` with a failing window creation: the error is
propagated, `out` untouched, no native call, no panic. -/
theorem imageFrameBuild_createErr (bi : ImageFrameBuilder) (oif : ImageFrame)
    (env : Env) (par : ControlHandle) (e : NwgError)
    (hp : bi.parent = some par)
    (hc : env.createWindow (bi.createParams par) = .error e) :
    bi.build oif env = .ok (.error e, oif, []) := by
  simp only [ImageFrameBuilder.build, hp, hc]

/-- `ImageFrameBuilder::build` with a succeeding window creation: the handle is
bound, the post-creation image configuration prefers the bitmap, and the hook
is attached exactly when a background color was requested. -/
theorem imageFrameBuild_ok (bi : ImageFrameBuilder) (oif : ImageFrame)
    (env : Env) (par : ControlHandle) (hw : Nat)
    (hp : bi.parent = some par)
    (hc : env.createWindow (bi.createParams par) = .ok hw) :
    bi.build oif env = .ok (.ok (),
      (match bi.background_color with
       | none => { oif with handle := .Hwnd hw }
       | some col => { oif with
           handle := .Hwnd hw
           handler0 := some ⟨env.getWindowParent hw, hw, hw,
             env.createSolidBrush (RGB col)⟩ }),
      (if bi.bitmap.isSome then
        [.sendMessage hw STM_SETIMAGE IMAGE_BITMAP
          ((bi.bitmap.map (fun i => i.handle)).getD 0)]
      else if bi.icon.isSome then
        [.sendMessage hw STM_SETIMAGE IMAGE_ICON
          ((bi.icon.map (fun i => i.handle)).getD 0)]
      else [])
      ++ (match bi.background_color with
          | none => []
          | some col => [.getWindowParent hw, .createSolidBrush (RGB col),
              .bindRawEventHandler (env.getWindowParent hw) hw])) := by
  simp only [ImageFrameBuilder.build, hp, hc]
  rcases hbm : bi.bitmap with _ | bm <;> rcases hic : bi.icon with _ | ic <;>
    rcases hbg : bi.background_color with _ | col <;>
    simp [ImageFrame.set_bitmap, ImageFrame.set_icon,
      ImageFrame.hook_background_color, ControlHandle.blank, ControlHandle.hwnd]

/-- `RichTextBoxBuilder::build` with no parent: MissingParent, `out` untouched,
no native call, no panic. -/
theorem richTextBuild_noParent (brt : RichTextBoxBuilder) (ort : RichTextBox)
    (env : Env) (hp : brt.parent = none) :
    brt.build ort env = .ok (.error (NwgError.no_parent "RichTextBox"), ort, []) := by
  simp only [RichTextBoxBuilder.build, hp]

/-- `RichTextBoxBuilder::build` with a failing window creation: the error is
propagated, `out` untouched, no native call, no panic. -/
theorem richTextBuild_createErr (brt : RichTextBoxBuilder) (ort : RichTextBox)
    (env : Env) (par : ControlHandle) (e : NwgError)
    (hp : brt.parent = some par)
    (hc : env.createWindow (brt.createParams par) = .error e) :
    brt.build ort env = .ok (.error e, ort, []) := by
  simp only [RichTextBoxBuilder.build, hp, hc]

/-- `RichTextBoxBuilder::build` with a succeeding window creation: the handle
is bound and the conditional post-creation configuration runs in source
order. -/
theorem richTextBuild_ok (brt : RichTextBoxBuilder) (ort : RichTextBox)
    (env : Env) (par : ControlHandle) (hw : Nat)
    (hp : brt.parent = some par)
    (hc : env.createWindow (brt.createParams par) = .ok hw) :
    brt.build ort env = .ok (.ok (), ⟨.Hwnd hw⟩,
      (if brt.limit > 0 then [.sendMessage hw EM_SETLIMITTEXT brt.limit 0] else [])
      ++ (if brt.readonly then [.sendMessage hw EM_SETREADONLY 1 0] else [])
      ++ (if brt.font.isSome then
            [.setWindowFont hw (brt.font.map (fun f => f.handle)) true]
          else [])) := by
  simp only [RichTextBoxBuilder.build, hp, hc]
  rcases hro : brt.readonly with _ | _ <;>
    rcases hfo : brt.font with _ | fo <;>
    by_cases hl : brt.limit > 0 <;>
    simp [hl, RichTextBox.set_limit, RichTextBox.set_readonly, RichTextBox.set_font,
      ControlHandle.blank, ControlHandle.hwnd]

/-- OR-combining a flag set into another and then masking by it gives it
back. -/
theorem lor_land_self (a b : Nat) : (a ||| b) &&& b = b := by
  apply Nat.eq_of_testBit_eq
  intro i
  simp only [Nat.testBit_land, Nat.testBit_lor]
  cases ha : a.testBit i <;> cases hb : b.testBit i <;> simp

/-- Claim C5: for every choice of explicit flags (or none) supplied to the
ImageFrame or RichTextBox builder, the type's forced flags are present in the
effective flag set used for window creation:
`effective &&& forced = forced`. -/
theorem c5_forced_flags_present (bi : ImageFrameBuilder) (brt : RichTextBoxBuilder) :
    effectiveFlags bi.creationFlags ImageFrame.forced_flags &&& ImageFrame.forced_flags
        = ImageFrame.forced_flags ∧
    effectiveFlags brt.creationFlags RichTextBox.forced_flags &&& RichTextBox.forced_flags
        = RichTextBox.forced_flags :=
  ⟨lor_land_self _ _, lor_land_self _ _⟩

/-- Claim C3: the background-color callback registered by
`ImageFrame::hook_background_color` answers with the custom brush exactly on a
`WM_CTLCOLORSTATIC` message whose embedded child reference equals this
control's own handle, and answers `none` (not handled) on every other message
or child reference; hence for two hooked controls with distinct handles, a
message carrying control A's identity yields exactly A's brush and is declined
by B's callback. -/
theorem c3_bg_callback_routing (handle brush hA bA hB bB hw msg w l : Nat)
    (hne : hA ≠ hB) :
    (msg = WM_CTLCOLORSTATIC ∧ l = handle →
      imageFrameBgCallback handle brush hw msg w l = some brush) ∧
    (¬(msg = WM_CTLCOLORSTATIC ∧ l = handle) →
      imageFrameBgCallback handle brush hw msg w l = none) ∧
    imageFrameBgCallback hA bA hw WM_CTLCOLORSTATIC w hA = some bA ∧
    imageFrameBgCallback hB bB hw WM_CTLCOLORSTATIC w hA = none := by
  refine ⟨?_, ?_, ?_, ?_⟩
  · rintro ⟨hm, hl⟩
    simp [imageFrameBgCallback, hm, hl]
  · intro hno
    by_cases hm : msg = WM_CTLCOLORSTATIC
    · by_cases hl : l = handle
      · exact absurd ⟨hm, hl⟩ hno
      · simp [imageFrameBgCallback, hm, hl]
    · simp [imageFrameBgCallback, hm]
  · simp [imageFrameBgCallback]
  · simp only [imageFrameBgCallback, if_pos rfl]
    simp [hne]

/-- Witness for C3 at concrete handles and brushes. -/
theorem c3_bg_callback_routing_witness :
    imageFrameBgCallback 1 2 0 WM_CTLCOLORSTATIC 0 1 = some 2 ∧
    imageFrameBgCallback 3 4 0 WM_CTLCOLORSTATIC 0 1 = none := by
  have h := c3_bg_callback_routing 1 2 1 2 3 4 0 WM_CTLCOLORSTATIC 0 1 (by decide)
  exact ⟨h.1 ⟨rfl, rfl⟩, h.2.2.2⟩

/-- Claim C7: on teardown (`Drop`) of an `ImageFrame`, the hook-unbind
operation runs exactly once when a handler is attached and zero times when no
handler was ever attached; a successful `hook_background_color` always leaves
a control whose teardown unbinds exactly once. -/
theorem c7_drop_unbind (c : ImageFrame) :
    (∀ h, c.handler0 = some h →
      c.drop = [NativeCall.unbindRawEventHandler h] ∧ c.drop.length = 1) ∧
    (c.handler0 = none → c.drop = []) ∧
    (∀ col env c2 calls, c.hook_background_color col env = (.ok c2, calls) →
      c2.drop.length = 1) := by
  refine ⟨?_, ?_, ?_⟩
  · intro h hh
    simp [ImageFrame.drop, hh]
  · intro hh
    simp [ImageFrame.drop, hh]
  · intro col env c2 calls hcall
    rcases c with ⟨hd, hr⟩
    cases hd with
    | NoHandle => simp [ImageFrame.hook_background_color, ControlHandle.blank] at hcall
    | Hwnd hw =>
      simp only [ImageFrame.hook_background_color, ControlHandle.blank,
        ControlHandle.hwnd, Bool.false_eq_true, if_false, Prod.mk.injEq] at hcall
      obtain ⟨h1, -⟩ := hcall
      cases h1
      rfl

/-- Witness for C7: a control holding a handler unbinds it once; a fresh
control unbinds nothing; hooking a bound control yields a control that unbinds
once on teardown. -/
theorem c7_drop_unbind_witness :
    ImageFrame.drop ⟨ControlHandle.Hwnd 5, some ⟨1, 5, 5, 9⟩⟩
        = [NativeCall.unbindRawEventHandler ⟨1, 5, 5, 9⟩] ∧
    ImageFrame.drop ⟨ControlHandle.NoHandle, none⟩ = [] ∧
    (ImageFrame.drop ⟨ControlHandle.Hwnd 5, some ⟨1, 5, 5, 1⟩⟩).length = 1 := by
  refine ⟨((c7_drop_unbind ⟨ControlHandle.Hwnd 5, some ⟨1, 5, 5, 9⟩⟩).1 _ rfl).1,
    (c7_drop_unbind ⟨ControlHandle.NoHandle, none⟩).2.1 rfl,
    (c7_drop_unbind ⟨ControlHandle.Hwnd 5, none⟩).2.2 (0, 0, 0) env0
      ⟨ControlHandle.Hwnd 5, some ⟨1, 5, 5, 1⟩⟩
      [.getWindowParent 5, .createSolidBrush 0, .bindRawEventHandler 1 5] ?_⟩
  rfl

/-- Claim C1, evaluated at the failing input: with both a bitmap and an icon
supplied, the creation-flag computation of `ImageFrameBuilder::build` selects
the icon-mode flag `SS_ICON` — not the bitmap-mode flag `SS_BITMAP` that the
builder's own documentation ("If this value is set, icon is ignored") and the
spec promise — while the post-creation configuration does install the bitmap
(the `STM_SETIMAGE`/`IMAGE_BITMAP` message with the bitmap's handle 10). -/
theorem c1_both_resources_icon_flag_bitmap_image :
    bothImagesBuilder.creationFlags = ImageFrame.flags ||| SS_ICON ∧
    bothImagesBuilder.creationFlags ≠ ImageFrame.flags ||| SS_BITMAP ∧
    bothImagesBuilder.build ⟨ControlHandle.NoHandle, none⟩ env0
      = .ok (.ok (), ⟨ControlHandle.Hwnd 7, none⟩,
          [.sendMessage 7 STM_SETIMAGE IMAGE_BITMAP 10]) := by
  refine ⟨rfl, by decide, rfl⟩

/-- Claim C2, counterexample: `MessageWindowBuilder` has no parent parameter
at all, and with no parent ever supplied its `build` returns `Ok` with the
handle bound (in an environment where creation succeeds with handle 7) —
not a MissingParent error. -/
theorem c2_message_window_counterexample :
    MessageWindowBuilder.build MessageWindow.builder ⟨ControlHandle.NoHandle⟩ env0
      = (.ok (), ⟨ControlHandle.Hwnd 7⟩) := rfl

/-- Claim C2 (amended): for ImageFrame and RichTextBox, building without a
parent returns the MissingParent error naming the control type, without
panicking; with a parent supplied, all optional fields absent and window
creation succeeding, build returns Ok and the control's handle is bound.
MessageWindow's builder has no parent parameter; its build binds the handle
whenever platform creation succeeds. No build ever panics. -/
theorem c2_build_parent_validation (bi : ImageFrameBuilder)
    (brt : RichTextBoxBuilder) (oif : ImageFrame) (ort : RichTextBox)
    (omw : MessageWindow) (env : Env) (hwa hwb hwc : Nat) (par parb : ControlHandle) :
    (bi.parent = none →
      bi.build oif env = .ok (.error (NwgError.MissingParent "ImageFrame"), oif, [])) ∧
    (brt.parent = none →
      brt.build ort env = .ok (.error (NwgError.MissingParent "RichTextBox"), ort, [])) ∧
    (bi.parent = some par → bi.bitmap = none → bi.icon = none →
      bi.background_color = none →
      env.createWindow (bi.createParams par) = .ok hwa →
      bi.build oif env = .ok (.ok (), { oif with handle := .Hwnd hwa }, []) ∧
      ControlHandle.blank (.Hwnd hwa) = false) ∧
    (brt.parent = some parb → brt.limit = 0 → brt.readonly = false →
      brt.font = none →
      env.createWindow (brt.createParams parb) = .ok hwb →
      brt.build ort env = .ok (.ok (), ⟨.Hwnd hwb⟩, []) ∧
      ControlHandle.blank (.Hwnd hwb) = false) ∧
    (env.createMessageWindow = .ok hwc →
      MessageWindowBuilder.build MessageWindow.builder omw env
        = (.ok (), ⟨.Hwnd hwc⟩)) ∧
    isOkE (bi.build oif env) = true ∧
    isOkE (brt.build ort env) = true := by
  refine ⟨?_, ?_, ?_, ?_, ?_, ?_, ?_⟩
  · intro hp
    exact imageFrameBuild_noParent bi oif env hp
  · intro hp
    exact richTextBuild_noParent brt ort env hp
  · intro hp hbm hic hbg hc
    rw [imageFrameBuild_ok bi oif env par hwa hp hc]
    simp [hbm, hic, hbg, ControlHandle.blank]
  · intro hp hl hro hfo hc
    rw [richTextBuild_ok brt ort env parb hwb hp hc]
    simp [hl, hro, hfo, ControlHandle.blank]
  · intro hm
    simp only [MessageWindowBuilder.build, hm]
  · rcases hp : bi.parent with _ | par2
    · rw [imageFrameBuild_noParent bi oif env hp]; rfl
    · rcases hc : env.createWindow (bi.createParams par2) with e | hw
      · rw [imageFrameBuild_createErr bi oif env par2 e hp hc]; rfl
      · rw [imageFrameBuild_ok bi oif env par2 hw hp hc]; rfl
  · rcases hp : brt.parent with _ | par2
    · rw [richTextBuild_noParent brt ort env hp]; rfl
    · rcases hc : env.createWindow (brt.createParams par2) with e | hw
      · rw [richTextBuild_createErr brt ort env par2 e hp hc]; rfl
      · rw [richTextBuild_ok brt ort env par2 hw hp hc]; rfl

/-- Witness for C2 at concrete builders and environment. -/
theorem c2_build_parent_validation_witness :
    ImageFrameBuilder.build ImageFrame.builder ⟨ControlHandle.NoHandle, none⟩ env0
      = .ok (.error (NwgError.MissingParent "ImageFrame"), ⟨ControlHandle.NoHandle, none⟩, []) ∧
    RichTextBoxBuilder.build RichTextBox.builder ⟨ControlHandle.NoHandle⟩ env0
      = .ok (.error (NwgError.MissingParent "RichTextBox"), ⟨ControlHandle.NoHandle⟩, []) ∧
    ImageFrameBuilder.build { ImageFrame.builder with parent := some (ControlHandle.Hwnd 1) }
        ⟨ControlHandle.NoHandle, none⟩ env0
      = .ok (.ok (), ⟨ControlHandle.Hwnd 7, none⟩, []) ∧
    RichTextBoxBuilder.build { RichTextBox.builder with parent := some (ControlHandle.Hwnd 1) }
        ⟨ControlHandle.NoHandle⟩ env0
      = .ok (.ok (), ⟨ControlHandle.Hwnd 7⟩, []) ∧
    MessageWindowBuilder.build MessageWindow.builder ⟨ControlHandle.NoHandle⟩ env0
      = (.ok (), ⟨ControlHandle.Hwnd 7⟩) := by
  refine ⟨(c2_build_parent_validation ImageFrame.builder RichTextBox.builder
      ⟨ControlHandle.NoHandle, none⟩ ⟨ControlHandle.NoHandle⟩ ⟨ControlHandle.NoHandle⟩
      env0 7 7 7 (ControlHandle.Hwnd 1) (ControlHandle.Hwnd 1)).1 rfl,
    (c2_build_parent_validation ImageFrame.builder RichTextBox.builder
      ⟨ControlHandle.NoHandle, none⟩ ⟨ControlHandle.NoHandle⟩ ⟨ControlHandle.NoHandle⟩
      env0 7 7 7 (ControlHandle.Hwnd 1) (ControlHandle.Hwnd 1)).2.1 rfl,
    ((c2_build_parent_validation { ImageFrame.builder with parent := some (ControlHandle.Hwnd 1) }
      { RichTextBox.builder with parent := some (ControlHandle.Hwnd 1) }
      ⟨ControlHandle.NoHandle, none⟩ ⟨ControlHandle.NoHandle⟩ ⟨ControlHandle.NoHandle⟩
      env0 7 7 7 (ControlHandle.Hwnd 1) (ControlHandle.Hwnd 1)).2.2.1
      rfl rfl rfl rfl rfl).1,
    ((c2_build_parent_validation { ImageFrame.builder with parent := some (ControlHandle.Hwnd 1) }
      { RichTextBox.builder with parent := some (ControlHandle.Hwnd 1) }
      ⟨ControlHandle.NoHandle, none⟩ ⟨ControlHandle.NoHandle⟩ ⟨ControlHandle.NoHandle⟩
      env0 7 7 7 (ControlHandle.Hwnd 1) (ControlHandle.Hwnd 1)).2.2.2.1
      rfl rfl rfl rfl rfl).1,
    (c2_build_parent_validation ImageFrame.builder RichTextBox.builder
      ⟨ControlHandle.NoHandle, none⟩ ⟨ControlHandle.NoHandle⟩ ⟨ControlHandle.NoHandle⟩
      env0 7 7 7 (ControlHandle.Hwnd 1) (ControlHandle.Hwnd 1)).2.2.2.2.1 rfl⟩

/-- Claim C6: build is atomic from the caller's perspective. If build returns
an error (missing parent or propagated creation failure), the output control
is unchanged — handle and hook state as before, and not one post-creation
native call was made. If build returns Ok, the handle is bound, the hook is
attached exactly when requested, and the requested post-configuration calls
were made: the bitmap installation when a bitmap was supplied, the icon
installation when an icon (and no bitmap) was supplied. -/
theorem c6_build_atomicity (bi : ImageFrameBuilder) (brt : RichTextBoxBuilder)
    (oif : ImageFrame) (ort : RichTextBox) (env : Env) :
    (∀ e out2 calls, bi.build oif env = .ok (.error e, out2, calls) →
      out2 = oif ∧ calls = []) ∧
    (∀ out2 calls, bi.build oif env = .ok (.ok (), out2, calls) →
      out2.handle.blank = false ∧
      (bi.background_color.isSome = true → out2.handler0.isSome = true) ∧
      (bi.background_color = none → out2.handler0 = oif.handler0) ∧
      (bi.bitmap.isSome = true →
        ∃ hw l, NativeCall.sendMessage hw STM_SETIMAGE IMAGE_BITMAP l ∈ calls) ∧
      (bi.bitmap = none → bi.icon.isSome = true →
        ∃ hw l, NativeCall.sendMessage hw STM_SETIMAGE IMAGE_ICON l ∈ calls)) ∧
    (∀ e out2 calls, brt.build ort env = .ok (.error e, out2, calls) →
      out2 = ort ∧ calls = []) ∧
    (∀ out2 calls, brt.build ort env = .ok (.ok (), out2, calls) →
      out2.handle.blank = false ∧
      (0 < brt.limit → calls.any isSetLimitCall = true) ∧
      (brt.readonly = true → calls.any isSetReadonlyCall = true) ∧
      (brt.font.isSome = true → calls.any isSetFontCall = true)) := by
  refine ⟨?_, ?_, ?_, ?_⟩
  · intro e out2 calls h
    rcases hp : bi.parent with _ | par
    · rw [imageFrameBuild_noParent bi oif env hp] at h
      simp only [Except.ok.injEq, Prod.mk.injEq] at h
      exact ⟨h.2.1.symm, h.2.2.symm⟩
    · rcases hc : env.createWindow (bi.createParams par) with e2 | hw
      · rw [imageFrameBuild_createErr bi oif env par e2 hp hc] at h
        simp only [Except.ok.injEq, Prod.mk.injEq] at h
        exact ⟨h.2.1.symm, h.2.2.symm⟩
      · rw [imageFrameBuild_ok bi oif env par hw hp hc] at h
        simp at h
  · intro out2 calls h
    rcases hp : bi.parent with _ | par
    · rw [imageFrameBuild_noParent bi oif env hp] at h
      simp at h
    · rcases hc : env.createWindow (bi.createParams par) with e2 | hw
      · rw [imageFrameBuild_createErr bi oif env par e2 hp hc] at h
        simp at h
      · rw [imageFrameBuild_ok bi oif env par hw hp hc] at h
        simp only [Except.ok.injEq, Prod.mk.injEq, true_and] at h
        obtain ⟨ho, hcalls⟩ := h
        rcases hbg : bi.background_color with _ | col <;>
          rcases hbm : bi.bitmap with _ | bm <;>
          rcases hic : bi.icon with _ | ic <;>
          simp [hbg, hbm, hic] at ho hcalls <;>
          subst ho <;> subst hcalls <;>
          simp [ControlHandle.blank, hbm, hbg, hic]
  · intro e out2 calls h
    rcases hp : brt.parent with _ | par
    · rw [richTextBuild_noParent brt ort env hp] at h
      simp only [Except.ok.injEq, Prod.mk.injEq] at h
      exact ⟨h.2.1.symm, h.2.2.symm⟩
    · rcases hc : env.createWindow (brt.createParams par) with e2 | hw
      · rw [richTextBuild_createErr brt ort env par e2 hp hc] at h
        simp only [Except.ok.injEq, Prod.mk.injEq] at h
        exact ⟨h.2.1.symm, h.2.2.symm⟩
      · rw [richTextBuild_ok brt ort env par hw hp hc] at h
        simp at h
  · intro out2 calls h
    rcases hp : brt.parent with _ | par
    · rw [richTextBuild_noParent brt ort env hp] at h
      simp at h
    · rcases hc : env.createWindow (brt.createParams par) with e2 | hw
      · rw [richTextBuild_createErr brt ort env par e2 hp hc] at h
        simp at h
      · rw [richTextBuild_ok brt ort env par hw hp hc] at h
        simp only [Except.ok.injEq, Prod.mk.injEq, true_and] at h
        obtain ⟨ho, hcalls⟩ := h
        subst hcalls
        refine ⟨by rw [← ho]; rfl, ?_, ?_, ?_⟩
        · intro hl
          simp [List.any_append, hl, isSetLimitCall]
        · intro hro
          simp [List.any_append, hro, isSetReadonlyCall]
        · intro hfo
          simp [List.any_append, hfo, isSetFontCall]

/-- Witness for C6: evaluating both builds at a missing parent, at a full
success with a limit, and at a success with only an icon supplied. -/
theorem c6_build_atomicity_witness :
    (⟨ControlHandle.NoHandle, none⟩ : ImageFrame) = ⟨ControlHandle.NoHandle, none⟩ ∧
    ControlHandle.blank (ControlHandle.Hwnd 7) = false ∧
    ([NativeCall.sendMessage 7 EM_SETLIMITTEXT 9 0].any isSetLimitCall) = true ∧
    (∃ hw l, NativeCall.sendMessage hw STM_SETIMAGE IMAGE_ICON l
      ∈ [NativeCall.sendMessage 7 STM_SETIMAGE IMAGE_ICON 11]) := by
  have h1 := (c6_build_atomicity ImageFrame.builder RichTextBox.builder
    ⟨ControlHandle.NoHandle, none⟩ ⟨ControlHandle.NoHandle⟩ env0).1
    (NwgError.MissingParent "ImageFrame") ⟨ControlHandle.NoHandle, none⟩ [] rfl
  have h2 := (c6_build_atomicity ImageFrame.builder
    { RichTextBox.builder with parent := some (ControlHandle.Hwnd 1), limit := 9 }
    ⟨ControlHandle.NoHandle, none⟩ ⟨ControlHandle.NoHandle⟩ env0).2.2.2
    ⟨ControlHandle.Hwnd 7⟩ [NativeCall.sendMessage 7 EM_SETLIMITTEXT 9 0] rfl
  have h3 := (c6_build_atomicity
    { ImageFrame.builder with parent := some (ControlHandle.Hwnd 1), icon := some ⟨11, true⟩ }
    RichTextBox.builder ⟨ControlHandle.NoHandle, none⟩ ⟨ControlHandle.NoHandle⟩ env0).2.1
    ⟨ControlHandle.Hwnd 7, none⟩ [NativeCall.sendMessage 7 STM_SETIMAGE IMAGE_ICON 11] rfl
  exact ⟨h1.1, h2.1, h2.2.1 (by decide), h3.2.2.2.2 rfl rfl⟩

/-- Claim C10: with a parent supplied and window creation succeeding,
`RichTextBoxBuilder::build` performs the `set_limit` configuration exactly
when the configured limit is strictly positive (the builder default is 0, so
by default no limit call is made and the platform default limit stays in
effect), performs `set_readonly` exactly when readonly is true, and
`set_font` exactly when a font was supplied. -/
theorem c10_rtb_conditional_post_config (brt : RichTextBoxBuilder)
    (ort : RichTextBox) (env : Env) (par : ControlHandle) (hw : Nat)
    (res : Except NwgError Unit) (out2 : RichTextBox) (calls : List NativeCall)
    (hp : brt.parent = some par)
    (hc : env.createWindow (brt.createParams par) = .ok hw)
    (hb : brt.build ort env = .ok (res, out2, calls)) :
    (calls.any isSetLimitCall = true ↔ 0 < brt.limit) ∧
    (calls.any isSetReadonlyCall = true ↔ brt.readonly = true) ∧
    (calls.any isSetFontCall = true ↔ brt.font.isSome = true) ∧
    RichTextBox.builder.limit = 0 := by
  rw [richTextBuild_ok brt ort env par hw hp hc] at hb
  simp only [Except.ok.injEq, Prod.mk.injEq] at hb
  obtain ⟨-, -, hcalls⟩ := hb
  subst hcalls
  refine ⟨?_, ?_, ?_, rfl⟩ <;>
    (by_cases hl : brt.limit > 0 <;>
      rcases hro : brt.readonly with _ | _ <;>
      rcases hfo : brt.font with _ | fo <;>
      simp [hl, hro, hfo, List.any_append, isSetLimitCall, isSetReadonlyCall,
        isSetFontCall, EM_SETLIMITTEXT, EM_SETREADONLY])

/-- Witness for C10: a builder with limit 9, readonly true and a font makes
all three configuration calls; the default builder has limit 0. -/
theorem c10_rtb_conditional_post_config_witness :
    (([NativeCall.sendMessage 7 EM_SETLIMITTEXT 9 0]
      ++ [NativeCall.sendMessage 7 EM_SETREADONLY 1 0]
      ++ [NativeCall.setWindowFont 7 (some 4) true]).any isSetLimitCall = true
        ↔ 0 < (9 : Nat)) ∧
    RichTextBox.builder.limit = 0 := by
  have h := c10_rtb_conditional_post_config
    { RichTextBox.builder with
      parent := some (ControlHandle.Hwnd 1)
      limit := 9
      readonly := true
      font := some ⟨4⟩ }
    ⟨ControlHandle.NoHandle⟩ env0 (ControlHandle.Hwnd 1) 7 (.ok ())
    ⟨ControlHandle.Hwnd 7⟩
    ([NativeCall.sendMessage 7 EM_SETLIMITTEXT 9 0]
      ++ [NativeCall.sendMessage 7 EM_SETREADONLY 1 0]
      ++ [NativeCall.setWindowFont 7 (some 4) true])
    rfl rfl rfl
  exact ⟨h.1, h.2.2.2⟩

/-- Claim C8: for a bound `RichTextBox`, `set_selection(r)` followed by
`selection()` returns a range equal to `r`, provided
`r.start ≤ r.stop ≤ current text length`. The platform is spec-modelled: it
applies the `EM_SETSEL` call emitted by `set_selection` to its selection
state (`applyCalls`), and the subsequent dual-output query observes that
state (`emGetSel`). -/
theorem c8_selection_roundtrip (c : RichTextBox) (hw : Nat) (st : EditState)
    (env2 : Env) (r : CharRange)
    (hb : c.handle = ControlHandle.Hwnd hw)
    (hr1 : r.start ≤ r.stop) (hr2 : r.stop ≤ st.textLen)
    (hobs : env2.getSel hw = emGetSel (applyCalls st (c.set_selection r).2)) :
    (c.set_selection r).1 = .ok () ∧ (c.selection env2).1 = .ok r := by
  obtain ⟨hd⟩ := c
  have hb2 : hd = ControlHandle.Hwnd hw := hb
  subst hb2
  refine ⟨rfl, ?_⟩
  have hsel : (RichTextBox.set_selection ⟨ControlHandle.Hwnd hw⟩ r).2
      = [NativeCall.sendMessage hw EM_SETSEL r.start r.stop] := rfl
  rw [hsel] at hobs
  have hst : applyCalls st [NativeCall.sendMessage hw EM_SETSEL r.start r.stop]
      = emSetSel st r.start r.stop := by
    simp [applyCalls, applySetSel]
  rw [hst] at hobs
  have hstart : min r.start st.textLen = r.start :=
    Nat.min_eq_left (le_trans hr1 hr2)
  have hstop : min r.stop st.textLen = r.stop := Nat.min_eq_left hr2
  have hget : emGetSel (emSetSel st r.start r.stop) = (r.start, r.stop) := by
    simp [emGetSel, emSetSel, hstart, hstop, Nat.min_eq_left hr1, Nat.max_eq_right hr1]
  rw [hget] at hobs
  simp [RichTextBox.selection, ControlHandle.blank, ControlHandle.hwnd, hobs]

/-- Witness for C8: round trip of the range `[1, 3)` on a control with text
length 5. -/
theorem c8_selection_roundtrip_witness :
    (RichTextBox.set_selection ⟨ControlHandle.Hwnd 4⟩ ⟨1, 3⟩).1 = .ok () ∧
    (RichTextBox.selection ⟨ControlHandle.Hwnd 4⟩ envSel13).1 = .ok ⟨1, 3⟩ :=
  c8_selection_roundtrip ⟨ControlHandle.Hwnd 4⟩ 4 ⟨5, 0, 0⟩ envSel13 ⟨1, 3⟩
    rfl (by decide) (by decide) rfl

/-- Claim C9, counterexample: `selection()` performs no normalization of its
own — when the platform writes the decreasing pair `(5, 3)` into the two
output slots, the returned range has `start > end`, so validity does not hold
for *every* value the dual-output query may write. -/
theorem c9_selection_counterexample :
    (RichTextBox.selection ⟨ControlHandle.Hwnd 5⟩ envSel53).1
      = .ok ⟨5, 3⟩ ∧
    ¬ ((⟨5, 3⟩ : CharRange).start ≤ (⟨5, 3⟩ : CharRange).stop) := by
  exact ⟨rfl, by decide⟩

/-- Claim C9 (amended): `selection()` returns exactly the pair the platform
wrote into the two output slots (first as `start`, second as `end`); whenever
the platform query follows the spec-modelled selection contract (`emGetSel`,
which normalizes the stored endpoints), the returned range always satisfies
`start ≤ end`. -/
theorem c9_selection_valid_range (c : RichTextBox) (hw : Nat) (st : EditState)
    (env : Env) (hb : c.handle = ControlHandle.Hwnd hw)
    (hobs : env.getSel hw = emGetSel st) :
    (c.selection env).1 = .ok ⟨(env.getSel hw).1, (env.getSel hw).2⟩ ∧
    ∀ r, (c.selection env).1 = .ok r → r.start ≤ r.stop := by
  obtain ⟨hd⟩ := c
  have hb2 : hd = ControlHandle.Hwnd hw := hb
  subst hb2
  constructor
  · rfl
  · intro r hr
    have hreq : CharRange.mk (env.getSel hw).1 (env.getSel hw).2 = r := by
      simpa [RichTextBox.selection, ControlHandle.blank, ControlHandle.hwnd] using hr
    subst hreq
    rw [hobs]
    exact min_le_max

/-- Witness for C9 at a concrete bound control and platform state. -/
theorem c9_selection_valid_range_witness :
    (RichTextBox.selection ⟨ControlHandle.Hwnd 5⟩ env0).1 = .ok ⟨0, 0⟩ ∧
    (CharRange.mk 0 0).start ≤ (CharRange.mk 0 0).stop :=
  ⟨(c9_selection_valid_range ⟨ControlHandle.Hwnd 5⟩ 5 ⟨0, 0, 0⟩ env0 rfl rfl).1,
   (c9_selection_valid_range ⟨ControlHandle.Hwnd 5⟩ 5 ⟨0, 0, 0⟩ env0 rfl rfl).2 ⟨0, 0⟩
     (c9_selection_valid_range ⟨ControlHandle.Hwnd 5⟩ 5 ⟨0, 0, 0⟩ env0 rfl rfl).1⟩

/-- Claim C4: every property accessor (getter or setter) on `ImageFrame` and
`RichTextBox` fails fast with the unbound-control condition and performs no
native call when the control's handle is blank; under the precondition that
the handle is bound, the failure branch is unreachable (the operation
succeeds) and the native call is performed (the recorded trace is
nonempty). -/
theorem c4_accessor_guard (cif : ImageFrame) (crt : RichTextBox) (env : Env)
    (bm : Option Bitmap) (ic : Option Icon) (fo : Option Font) (r : CharRange)
    (v : Bool) (n m lim : Nat) (x y : Int) (s : String) :
    (cif.handle.blank = true →
      cif.set_bitmap bm = (.error ImageFrame.NOT_BOUND, []) ∧
      cif.set_icon ic = (.error ImageFrame.NOT_BOUND, []) ∧
      cif.image env = (.error ImageFrame.NOT_BOUND, []) ∧
      cif.enabled env = (.error ImageFrame.NOT_BOUND, []) ∧
      cif.set_enabled v = (.error ImageFrame.NOT_BOUND, []) ∧
      cif.visible env = (.error ImageFrame.NOT_BOUND, []) ∧
      cif.set_visible v = (.error ImageFrame.NOT_BOUND, []) ∧
      cif.size env = (.error ImageFrame.NOT_BOUND, []) ∧
      cif.set_size n m = (.error ImageFrame.NOT_BOUND, []) ∧
      cif.position env = (.error ImageFrame.NOT_BOUND, []) ∧
      cif.set_position x y = (.error ImageFrame.NOT_BOUND, [])) ∧
    (cif.handle.blank = false →
      (isOkE (cif.set_bitmap bm).1 = true ∧ (cif.set_bitmap bm).2 ≠ []) ∧
      (isOkE (cif.set_icon ic).1 = true ∧ (cif.set_icon ic).2 ≠ []) ∧
      (isOkE (cif.image env).1 = true ∧ (cif.image env).2 ≠ []) ∧
      (isOkE (cif.enabled env).1 = true ∧ (cif.enabled env).2 ≠ []) ∧
      (isOkE (cif.set_enabled v).1 = true ∧ (cif.set_enabled v).2 ≠ []) ∧
      (isOkE (cif.visible env).1 = true ∧ (cif.visible env).2 ≠ []) ∧
      (isOkE (cif.set_visible v).1 = true ∧ (cif.set_visible v).2 ≠ []) ∧
      (isOkE (cif.size env).1 = true ∧ (cif.size env).2 ≠ []) ∧
      (isOkE (cif.set_size n m).1 = true ∧ (cif.set_size n m).2 ≠ []) ∧
      (isOkE (cif.position env).1 = true ∧ (cif.position env).2 ≠ []) ∧
      (isOkE (cif.set_position x y).1 = true ∧ (cif.set_position x y).2 ≠ [])) ∧
    (crt.handle.blank = true →
      crt.font env = (.error RichTextBox.NOT_BOUND, []) ∧
      crt.set_font fo = (.error RichTextBox.NOT_BOUND, []) ∧
      crt.limit env = (.error RichTextBox.NOT_BOUND, []) ∧
      crt.set_limit lim = (.error RichTextBox.NOT_BOUND, []) ∧
      crt.modified env = (.error RichTextBox.NOT_BOUND, []) ∧
      crt.set_modified v = (.error RichTextBox.NOT_BOUND, []) ∧
      crt.undo = (.error RichTextBox.NOT_BOUND, []) ∧
      crt.selection env = (.error RichTextBox.NOT_BOUND, []) ∧
      crt.set_selection r = (.error RichTextBox.NOT_BOUND, []) ∧
      crt.len env = (.error RichTextBox.NOT_BOUND, []) ∧
      crt.readonly env = (.error RichTextBox.NOT_BOUND, []) ∧
      crt.set_readonly v = (.error RichTextBox.NOT_BOUND, []) ∧
      crt.set_text s = (.error RichTextBox.NOT_BOUND, []) ∧
      crt.clear = (.error RichTextBox.NOT_BOUND, []) ∧
      crt.focus env = (.error RichTextBox.NOT_BOUND, []) ∧
      crt.set_focus = (.error RichTextBox.NOT_BOUND, []) ∧
      crt.enabled env = (.error RichTextBox.NOT_BOUND, []) ∧
      crt.set_enabled v = (.error RichTextBox.NOT_BOUND, []) ∧
      crt.visible env = (.error RichTextBox.NOT_BOUND, []) ∧
      crt.set_visible v = (.error RichTextBox.NOT_BOUND, []) ∧
      crt.size env = (.error RichTextBox.NOT_BOUND, []) ∧
      crt.set_size n m = (.error RichTextBox.NOT_BOUND, []) ∧
      crt.position env = (.error RichTextBox.NOT_BOUND, []) ∧
      crt.set_position x y = (.error RichTextBox.NOT_BOUND, []) ∧
      crt.text env = (.error RichTextBox.NOT_BOUND, [])) ∧
    (crt.handle.blank = false →
      (isOkE (crt.font env).1 = true ∧ (crt.font env).2 ≠ []) ∧
      (isOkE (crt.set_font fo).1 = true ∧ (crt.set_font fo).2 ≠ []) ∧
      (isOkE (crt.limit env).1 = true ∧ (crt.limit env).2 ≠ []) ∧
      (isOkE (crt.set_limit lim).1 = true ∧ (crt.set_limit lim).2 ≠ []) ∧
      (isOkE (crt.modified env).1 = true ∧ (crt.modified env).2 ≠ []) ∧
      (isOkE (crt.set_modified v).1 = true ∧ (crt.set_modified v).2 ≠ []) ∧
      (isOkE crt.undo.1 = true ∧ crt.undo.2 ≠ []) ∧
      (isOkE (crt.selection env).1 = true ∧ (crt.selection env).2 ≠ []) ∧
      (isOkE (crt.set_selection r).1 = true ∧ (crt.set_selection r).2 ≠ []) ∧
      (isOkE (crt.len env).1 = true ∧ (crt.len env).2 ≠ []) ∧
      (isOkE (crt.readonly env).1 = true ∧ (crt.readonly env).2 ≠ []) ∧
      (isOkE (crt.set_readonly v).1 = true ∧ (crt.set_readonly v).2 ≠ []) ∧
      (isOkE (crt.set_text s).1 = true ∧ (crt.set_text s).2 ≠ []) ∧
      (isOkE crt.clear.1 = true ∧ crt.clear.2 ≠ []) ∧
      (isOkE (crt.focus env).1 = true ∧ (crt.focus env).2 ≠ []) ∧
      (isOkE crt.set_focus.1 = true ∧ crt.set_focus.2 ≠ []) ∧
      (isOkE (crt.enabled env).1 = true ∧ (crt.enabled env).2 ≠ []) ∧
      (isOkE (crt.set_enabled v).1 = true ∧ (crt.set_enabled v).2 ≠ []) ∧
      (isOkE (crt.visible env).1 = true ∧ (crt.visible env).2 ≠ []) ∧
      (isOkE (crt.set_visible v).1 = true ∧ (crt.set_visible v).2 ≠ []) ∧
      (isOkE (crt.size env).1 = true ∧ (crt.size env).2 ≠ []) ∧
      (isOkE (crt.set_size n m).1 = true ∧ (crt.set_size n m).2 ≠ []) ∧
      (isOkE (crt.position env).1 = true ∧ (crt.position env).2 ≠ []) ∧
      (isOkE (crt.set_position x y).1 = true ∧ (crt.set_position x y).2 ≠ []) ∧
      (isOkE (crt.text env).1 = true ∧ (crt.text env).2 ≠ [])) := by
  obtain ⟨hd, h0⟩ := cif
  obtain ⟨hd2⟩ := crt
  refine ⟨?_, ?_, ?_, ?_⟩ <;> intro hbl
  · cases hd with
    | NoHandle =>
        simp [ImageFrame.set_bitmap, ImageFrame.set_icon, ImageFrame.image,
          ImageFrame.enabled, ImageFrame.set_enabled, ImageFrame.visible,
          ImageFrame.set_visible, ImageFrame.size, ImageFrame.set_size,
          ImageFrame.position, ImageFrame.set_position,
          ControlHandle.blank, ControlHandle.hwnd]
    | Hwnd h => simp [ControlHandle.blank] at hbl
  · cases hd with
    | NoHandle => simp [ControlHandle.blank] at hbl
    | Hwnd h =>
        simp [ImageFrame.set_bitmap, ImageFrame.set_icon, ImageFrame.image,
          ImageFrame.enabled, ImageFrame.set_enabled, ImageFrame.visible,
          ImageFrame.set_visible, ImageFrame.size, ImageFrame.set_size,
          ImageFrame.position, ImageFrame.set_position, isOkE,
          ControlHandle.blank, ControlHandle.hwnd]
  · cases hd2 with
    | NoHandle =>
        simp [RichTextBox.font, RichTextBox.set_font, RichTextBox.limit,
          RichTextBox.set_limit, RichTextBox.modified, RichTextBox.set_modified,
          RichTextBox.undo, RichTextBox.selection, RichTextBox.set_selection,
          RichTextBox.len, RichTextBox.readonly, RichTextBox.set_readonly,
          RichTextBox.set_text, RichTextBox.clear, RichTextBox.focus,
          RichTextBox.set_focus, RichTextBox.enabled, RichTextBox.set_enabled,
          RichTextBox.visible, RichTextBox.set_visible, RichTextBox.size,
          RichTextBox.set_size, RichTextBox.position, RichTextBox.set_position,
          RichTextBox.text, ControlHandle.blank, ControlHandle.hwnd]
    | Hwnd h => simp [ControlHandle.blank] at hbl
  · cases hd2 with
    | NoHandle => simp [ControlHandle.blank] at hbl
    | Hwnd h =>
        simp [RichTextBox.font, RichTextBox.set_font, RichTextBox.limit,
          RichTextBox.set_limit, RichTextBox.modified, RichTextBox.set_modified,
          RichTextBox.undo, RichTextBox.selection, RichTextBox.set_selection,
          RichTextBox.len, RichTextBox.readonly, RichTextBox.set_readonly,
          RichTextBox.set_text, RichTextBox.clear, RichTextBox.focus,
          RichTextBox.set_focus, RichTextBox.enabled, RichTextBox.set_enabled,
          RichTextBox.visible, RichTextBox.set_visible, RichTextBox.size,
          RichTextBox.set_size, RichTextBox.position, RichTextBox.set_position,
          RichTextBox.text, isOkE, ControlHandle.blank, ControlHandle.hwnd]

/-- Witness for C4: unbound controls refuse with no native call; bound
controls succeed and perform the call. -/
theorem c4_accessor_guard_witness :
    ImageFrame.set_bitmap ⟨ControlHandle.NoHandle, none⟩ none
      = (.error ImageFrame.NOT_BOUND, []) ∧
    (isOkE (ImageFrame.set_bitmap ⟨ControlHandle.Hwnd 5, none⟩ none).1 = true ∧
      (ImageFrame.set_bitmap ⟨ControlHandle.Hwnd 5, none⟩ none).2 ≠ []) ∧
    RichTextBox.font ⟨ControlHandle.NoHandle⟩ env0
      = (.error RichTextBox.NOT_BOUND, []) ∧
    (isOkE (RichTextBox.font ⟨ControlHandle.Hwnd 5⟩ env0).1 = true ∧
      (RichTextBox.font ⟨ControlHandle.Hwnd 5⟩ env0).2 ≠ []) := by
  have hu := c4_accessor_guard ⟨ControlHandle.NoHandle, none⟩ ⟨ControlHandle.NoHandle⟩
    env0 none none none ⟨0, 0⟩ true 0 0 0 0 0 ""
  have hb := c4_accessor_guard ⟨ControlHandle.Hwnd 5, none⟩ ⟨ControlHandle.Hwnd 5⟩
    env0 none none none ⟨0, 0⟩ true 0 0 0 0 0 ""
  exact ⟨(hu.1 rfl).1, (hb.2.1 rfl).1, (hu.2.2.1 rfl).1, (hb.2.2.2 rfl).1⟩

end Nwg
